import Mathlib

/-!
Verification of the Sentinela IA frontend utilities.

JavaScript strings are modelled as `List Char` (the code only manipulates
ASCII plates, digit strings and short messages).  JavaScript's
`String.prototype.toUpperCase` is modelled on the ASCII range (the
character classes used by the code, `[A-Z]`, `[0-9]`, `\d`, only contain
ASCII characters, so non-ASCII case mapping is irrelevant to every
property below).  JavaScript `Date` values are modelled by their
epoch-milliseconds value (an `Int`); `Date.prototype.toISOString` is
injective on dates, so equality of ISO strings is equality of these
values, and `<`/`>=` on dates is the order on the values.
-/

namespace Sentinela

/-- Character class of the regular expression `[A-Z]`. -/
def isUpperAZ (c : Char) : Bool := 'A' ≤ c && c ≤ 'Z'

/-- Character class of the regular expressions `[0-9]` and `\d`. -/
def isDigit09 (c : Char) : Bool := '0' ≤ c && c ≤ '9'

/-- Table of the 26 ASCII lowercase letters and their uppercase counterparts. -/
def upperMap : List (Char × Char) :=
  [('a','A'),('b','B'),('c','C'),('d','D'),('e','E'),('f','F'),('g','G'),
   ('h','H'),('i','I'),('j','J'),('k','K'),('l','L'),('m','M'),('n','N'),
   ('o','O'),('p','P'),('q','Q'),('r','R'),('s','S'),('t','T'),('u','U'),
   ('v','V'),('w','W'),('x','X'),('y','Y'),('z','Z')]

/-- Character class `[a-z]` (the keys of `upperMap`). -/
def isLowerAZ (c : Char) : Bool := (upperMap.find? (fun p => p.1 == c)).isSome

/-- Alphanumeric characters (the complement of `[^A-Za-z0-9]`). -/
def isAlnumChar (c : Char) : Bool := isUpperAZ c || isDigit09 c || isLowerAZ c

/-- Characters kept by the source's normalisation regex `[^A-Z0-9]` (negated). -/
def isUpperAlnum (c : Char) : Bool := isUpperAZ c || isDigit09 c

/-- Model of `toUpperCase` on one character: each ASCII lowercase letter maps
to its uppercase counterpart, every other character is unchanged. -/
def jsToUpper (c : Char) : Char :=
  match upperMap.find? (fun p => p.1 == c) with
  | some p => p.2
  | none => c

/-- Whitespace characters removed by `String.prototype.trim` (ASCII part). -/
def jsWhitespace (c : Char) : Bool := c == ' ' || c == '\t' || c == '\n' || c == '\r'

/-- Model of `String.prototype.trim`. -/
def jsTrim (l : List Char) : List Char :=
  ((l.dropWhile jsWhitespace).reverse.dropWhile jsWhitespace).reverse

/-- Model of `String.prototype.toUpperCase`. -/
def jsUpper (l : List Char) : List Char := l.map jsToUpper

/-- Model of `.replace(/[^A-Z0-9]/g, '')`. -/
def keepUpperAlnum (l : List Char) : List Char := l.filter isUpperAlnum

/-- Model of "stripping all non-alphanumeric characters" from a string. -/
def stripNonAlnum (l : List Char) : List Char := l.filter isAlnumChar

/-- Normalisation performed by `Validators.validatePlaca`:
`placa.trim().toUpperCase().replace(/[^A-Z0-9]/g, '')`. -/
def normalizePlaca (l : List Char) : List Char := keepUpperAlnum (jsUpper (jsTrim l))

/-- Test of the regex `/^[A-Z]{3}[0-9]{4}$/` (legacy plate shape LLLNNNN). -/
def matchesAntigo : List Char → Bool
  | [c1, c2, c3, d1, d2, d3, d4] =>
      isUpperAZ c1 && isUpperAZ c2 && isUpperAZ c3 &&
      isDigit09 d1 && isDigit09 d2 && isDigit09 d3 && isDigit09 d4
  | _ => false

/-- Test of the regex `/^[A-Z]{3}[0-9][A-Z][0-9]{2}$/` (Mercosul shape LLLNLNN). -/
def matchesMercosul : List Char → Bool
  | [c1, c2, c3, d1, c4, d2, d3] =>
      isUpperAZ c1 && isUpperAZ c2 && isUpperAZ c3 &&
      isDigit09 d1 && isUpperAZ c4 && isDigit09 d2 && isDigit09 d3
  | _ => false

/-- Result record of `Validators.validatePlaca`. -/
structure PlacaValidation where
  valid : Bool
  message : String
  normalized : List Char
deriving Repr, DecidableEq

/-- Embedding of `Validators.validatePlaca` (static/js/validators.js). -/
def validatePlaca (placa : List Char) : PlacaValidation :=
  if placa = [] then
    { valid := false, message := "Placa é obrigatória", normalized := [] }
  else
    let normalized := normalizePlaca placa
    if normalized.length < 7 then
      { valid := false, message := "Placa deve ter pelo menos 7 caracteres", normalized }
    else if normalized.length > 7 then
      { valid := false, message := "Placa deve ter no máximo 7 caracteres", normalized }
    else if !(matchesAntigo normalized) && !(matchesMercosul normalized) then
      { valid := false, message := "Formato de placa inválido", normalized }
    else
      { valid := true, message := "Placa válida", normalized }

/-- Insertion of the display hyphen after the third character (the effect of
the replacement `'$1-$2'` in both plate formatters). -/
def hyphenAfter3 (l : List Char) : List Char := l.take 3 ++ '-' :: l.drop 3

/-- Embedding of `Formatters.formatarPlaca` (services/formatters.js) with
`detectarTipo = false`. -/
def formatarPlacaFmt (placa : List Char) : List Char :=
  if placa = [] then "N/D".data
  else
    let placaLimpa := normalizePlaca placa
    if matchesMercosul placaLimpa then hyphenAfter3 placaLimpa
    else if matchesAntigo placaLimpa then hyphenAfter3 placaLimpa
    else placaLimpa

/-- Embedding of `ConsultaService.formatarPlaca` (frontend consulta_service.js). -/
def formatarPlacaCS (placa : List Char) : List Char :=
  if placa = [] then "N/D".data
  else
    let placaLimpa := jsUpper (jsTrim placa)
    if matchesMercosul placaLimpa then hyphenAfter3 placaLimpa
    else if matchesAntigo placaLimpa then hyphenAfter3 placaLimpa
    else placaLimpa

lemma jsToUpper_not_lower (c : Char) : isLowerAZ (jsToUpper c) = false := by
  unfold jsToUpper
  cases hf : upperMap.find? (fun p => p.1 == c) with
  | none => simp [isLowerAZ, hf]
  | some p =>
      have hp : p ∈ upperMap := List.mem_of_find?_eq_some hf
      show isLowerAZ p.2 = false
      fin_cases hp <;> decide

lemma isAlnumChar_jsToUpper (c : Char) :
    isAlnumChar (jsToUpper c) = isUpperAlnum (jsToUpper c) := by
  simp [isAlnumChar, isUpperAlnum, jsToUpper_not_lower]

lemma alnum_of_upperAlnum {c : Char} (h : isUpperAlnum c = true) :
    isAlnumChar c = true := by
  simp only [isUpperAlnum, Bool.or_eq_true] at h
  simp [isAlnumChar, Bool.or_eq_true]
  tauto

lemma stripNonAlnum_of_upperAlnum {l : List Char}
    (h : ∀ c ∈ l, isUpperAlnum c = true) : stripNonAlnum l = l := by
  unfold stripNonAlnum
  rw [List.filter_eq_self]
  exact fun c hc => alnum_of_upperAlnum (h c hc)

lemma stripNonAlnum_hyphenAfter3 {l : List Char}
    (h : ∀ c ∈ l, isUpperAlnum c = true) : stripNonAlnum (hyphenAfter3 l) = l := by
  unfold hyphenAfter3 stripNonAlnum
  rw [List.filter_append]
  have h1 : (l.take 3).filter isAlnumChar = l.take 3 := by
    rw [List.filter_eq_self]
    exact fun c hc => alnum_of_upperAlnum (h c (List.take_subset 3 l hc))
  have h2 : (l.drop 3).filter isAlnumChar = l.drop 3 := by
    rw [List.filter_eq_self]
    exact fun c hc => alnum_of_upperAlnum (h c (List.drop_subset 3 l hc))
  have hm : isAlnumChar '-' = false := by decide
  simp [h1, h2, hm, List.filter_cons, List.take_append_drop]

lemma mem_normalizePlaca_upperAlnum (s : List Char) :
    ∀ c ∈ normalizePlaca s, isUpperAlnum c = true := by
  intro c hc
  unfold normalizePlaca keepUpperAlnum at hc
  exact List.of_mem_filter hc

lemma matchesAntigo_length {l : List Char} (h : matchesAntigo l = true) :
    l.length = 7 := by
  rcases l with _ | ⟨a, _ | ⟨b, _ | ⟨c, _ | ⟨d, _ | ⟨e, _ | ⟨f, _ |
    ⟨g, _ | ⟨x, t⟩⟩⟩⟩⟩⟩⟩⟩ <;> simp_all [matchesAntigo]

lemma matchesMercosul_length {l : List Char} (h : matchesMercosul l = true) :
    l.length = 7 := by
  rcases l with _ | ⟨a, _ | ⟨b, _ | ⟨c, _ | ⟨d, _ | ⟨e, _ | ⟨f, _ |
    ⟨g, _ | ⟨x, t⟩⟩⟩⟩⟩⟩⟩⟩ <;> simp_all [matchesMercosul]

lemma matchesAntigo_mem {l : List Char} (h : matchesAntigo l = true) :
    ∀ c ∈ l, isUpperAlnum c = true := by
  rcases l with _ | ⟨a, _ | ⟨b, _ | ⟨c, _ | ⟨d, _ | ⟨e, _ | ⟨f, _ |
    ⟨g, _ | ⟨x, t⟩⟩⟩⟩⟩⟩⟩⟩ <;> simp_all [matchesAntigo, isUpperAlnum]

lemma matchesMercosul_mem {l : List Char} (h : matchesMercosul l = true) :
    ∀ c ∈ l, isUpperAlnum c = true := by
  rcases l with _ | ⟨a, _ | ⟨b, _ | ⟨c, _ | ⟨d, _ | ⟨e, _ | ⟨f, _ |
    ⟨g, _ | ⟨x, t⟩⟩⟩⟩⟩⟩⟩⟩ <;> simp_all [matchesMercosul, isUpperAlnum]

lemma stripNonAlnum_jsUpper (l : List Char) :
    stripNonAlnum (jsUpper l) = keepUpperAlnum (jsUpper l) := by
  unfold stripNonAlnum keepUpperAlnum jsUpper
  induction l with
  | nil => rfl
  | cons a t ih => simp only [List.map_cons, List.filter_cons, isAlnumChar_jsToUpper, ih]

/-- Claim C4: `validatePlaca` accepts "ABC1234" (legacy shape) and "ABC1D23"
(Mercosul shape), rejects "AB123" with the too-short message, and in general
a plate is valid exactly when its normalised form matches one of the two
regex shapes. -/
theorem validatePlaca_formats :
    (validatePlaca "ABC1234".data).valid = true ∧
    matchesAntigo (normalizePlaca "ABC1234".data) = true ∧
    (validatePlaca "ABC1D23".data).valid = true ∧
    matchesMercosul (normalizePlaca "ABC1D23".data) = true ∧
    (validatePlaca "AB123".data).valid = false ∧
    (validatePlaca "AB123".data).message = "Placa deve ter pelo menos 7 caracteres" ∧
    ∀ s : List Char, (validatePlaca s).valid =
      (matchesAntigo (normalizePlaca s) || matchesMercosul (normalizePlaca s)) := by
  refine ⟨by decide, by decide, by decide, by decide, by decide, by decide, ?_⟩
  intro s
  by_cases hs : s = []
  · subst hs; decide
  · simp only [validatePlaca, if_neg hs]
    set n := normalizePlaca s with hn
    by_cases h7 : n.length < 7
    · rw [if_pos h7]
      have hA : matchesAntigo n = false := by
        cases hA : matchesAntigo n
        · rfl
        · exact absurd (matchesAntigo_length hA) (by omega)
      have hB : matchesMercosul n = false := by
        cases hB : matchesMercosul n
        · rfl
        · exact absurd (matchesMercosul_length hB) (by omega)
      simp [hA, hB]
    · rw [if_neg h7]
      by_cases h7' : n.length > 7
      · rw [if_pos h7']
        have hA : matchesAntigo n = false := by
          cases hA : matchesAntigo n
          · rfl
          · exact absurd (matchesAntigo_length hA) (by omega)
        have hB : matchesMercosul n = false := by
          cases hB : matchesMercosul n
          · rfl
          · exact absurd (matchesMercosul_length hB) (by omega)
        simp [hA, hB]
      · rw [if_neg h7']
        cases hA : matchesAntigo n <;> cases hB : matchesMercosul n <;> simp [hA, hB]

/-- Claim C5 (counterexample): on the empty string the formatters return
"N/D", whose alphanumeric content "ND" is not the normalised form of the
input, so the round-trip fails for that plate string. -/
theorem formatarPlaca_roundtrip_empty_cex :
    stripNonAlnum (formatarPlacaFmt []) ≠ normalizePlaca [] ∧
    stripNonAlnum (formatarPlacaFmt []) = 'N' :: 'D' :: [] ∧
    stripNonAlnum (formatarPlacaCS []) ≠ normalizePlaca [] := by decide

/-- Claim C5 (amended): for every non-empty plate string, formatting with
`Formatters.formatarPlaca` or `ConsultaService.formatarPlaca` and then
stripping all non-alphanumeric characters yields the plate's normalised form
(trimmed, upper-cased, non-alphanumerics removed). -/
theorem formatarPlaca_roundtrip_nonempty (s : List Char) (hs : s ≠ []) :
    stripNonAlnum (formatarPlacaFmt s) = normalizePlaca s ∧
    stripNonAlnum (formatarPlacaCS s) = normalizePlaca s := by
  constructor
  · have hmem := mem_normalizePlaca_upperAlnum s
    unfold formatarPlacaFmt
    rw [if_neg hs]
    show stripNonAlnum
        (if matchesMercosul (normalizePlaca s) then hyphenAfter3 (normalizePlaca s)
         else if matchesAntigo (normalizePlaca s) then hyphenAfter3 (normalizePlaca s)
         else normalizePlaca s) = normalizePlaca s
    split_ifs with h1 h2
    · exact stripNonAlnum_hyphenAfter3 hmem
    · exact stripNonAlnum_hyphenAfter3 hmem
    · exact stripNonAlnum_of_upperAlnum hmem
  · unfold formatarPlacaCS
    rw [if_neg hs]
    show stripNonAlnum
        (if matchesMercosul (jsUpper (jsTrim s)) then hyphenAfter3 (jsUpper (jsTrim s))
         else if matchesAntigo (jsUpper (jsTrim s)) then hyphenAfter3 (jsUpper (jsTrim s))
         else jsUpper (jsTrim s)) = normalizePlaca s
    have hnorm : normalizePlaca s = keepUpperAlnum (jsUpper (jsTrim s)) := rfl
    split_ifs with h1 h2
    · have hm := matchesMercosul_mem h1
      rw [stripNonAlnum_hyphenAfter3 hm, hnorm]
      exact (List.filter_eq_self.mpr hm).symm
    · have hm := matchesAntigo_mem h2
      rw [stripNonAlnum_hyphenAfter3 hm, hnorm]
      exact (List.filter_eq_self.mpr hm).symm
    · rw [hnorm]
      exact stripNonAlnum_jsUpper (jsTrim s)

/-- Claim C5 (witness): the amended round-trip at the concrete plate "abc-1234". -/
theorem formatarPlaca_roundtrip_witness :
    stripNonAlnum (formatarPlacaFmt "abc-1234".data) = normalizePlaca "abc-1234".data ∧
    stripNonAlnum (formatarPlacaCS "abc-1234".data) = normalizePlaca "abc-1234".data :=
  formatarPlaca_roundtrip_nonempty "abc-1234".data (by decide)

/-! CPF and CNPJ check digits.  Eleven/fourteen-digit strings are modelled as
lists of their digit values (the effect of `parseInt(s.charAt(i))` on a digit
string). -/

/-- Test of the regexes `/^(\d)\1{10}$/` and `/^(\d)\1{13}$/` on a digit
string of the matching length: all digits equal the first one. -/
def allSameDigits : List Nat → Bool
  | [] => true
  | d :: rest => rest.all (fun x => x == d)

/-- First CPF weighted sum: digit i times (10 - i), for i = 0..8. -/
def cpfSum1 (ds : List Nat) : Nat :=
  ((List.range 9).map (fun i => ds.getD i 0 * (10 - i))).sum

/-- Second CPF weighted sum: digit i times (11 - i), for i = 0..9. -/
def cpfSum2 (ds : List Nat) : Nat :=
  ((List.range 10).map (fun i => ds.getD i 0 * (11 - i))).sum

/-- Check-digit rule of `Validators.validateCpf`:
`resto = (soma * 10) % 11; if (resto === 10 || resto === 11) resto = 0`. -/
def cpfDvCode (soma : Nat) : Nat :=
  let resto := soma * 10 % 11
  if resto = 10 ∨ resto = 11 then 0 else resto

/-- Check-digit rule of `ConsultaService._validarCPF`:
`resto = 11 - (soma % 11); if (resto === 10 || resto === 11) resto = 0`. -/
def cpfDvService (soma : Nat) : Nat :=
  let resto := 11 - soma % 11
  if resto = 10 ∨ resto = 11 then 0 else resto

/-- Embedding of `Validators.validateCpf` (static/js/validators.js) on an
11-digit string, returning its `valid` flag.  The length-11 guard of the
source precedes the repeated-digit regex and the check-digit comparisons. -/
def validateCpf (ds : List Nat) : Bool :=
  if ds.length ≠ 11 then false
  else if allSameDigits ds then false
  else if cpfDvCode (cpfSum1 ds) ≠ ds.getD 9 0 then false
  else if cpfDvCode (cpfSum2 ds) ≠ ds.getD 10 0 then false
  else true

/-- Embedding of `ConsultaService._validarCPF` (frontend consulta_service.js);
its caller `validarDocumento` has already checked the length. -/
def validarCPF (ds : List Nat) : Bool :=
  if allSameDigits ds then false
  else if cpfDvService (cpfSum1 ds) ≠ ds.getD 9 0 then false
  else decide (cpfDvService (cpfSum2 ds) = ds.getD 10 0)

/-- Check-digit rule exactly as the specification words it: the modulo-11
check digit with remainders 10 and 11 mapped to 0. -/
def cpfCheckDigitSpec (soma : Nat) : Nat :=
  if 11 - soma % 11 ≥ 10 then 0 else 11 - soma % 11

/-- Specification predicate for C2: both CPF check digits match the weighted
sums over the preceding digits (weights 10..2 and 11..2). -/
def cpfDigitsMatchSpec (ds : List Nat) : Prop :=
  cpfCheckDigitSpec (cpfSum1 ds) = ds.getD 9 0 ∧
  cpfCheckDigitSpec (cpfSum2 ds) = ds.getD 10 0

lemma cpfDv_eq (soma : Nat) :
    cpfDvCode soma = cpfDvService soma ∧ cpfDvService soma = cpfCheckDigitSpec soma := by
  unfold cpfDvCode cpfDvService cpfCheckDigitSpec
  have hlt : soma % 11 < 11 := Nat.mod_lt _ (by norm_num)
  have hmul : soma * 10 % 11 = soma % 11 * 10 % 11 := by
    rw [Nat.mul_mod]
  rw [hmul]
  set r := soma % 11 with hr
  interval_cases r <;> simp

/-- Claim C2: on 11-digit strings, `validateCpf` returns true exactly when
both modulo-11 check digits match the weighted sums and the string is not a
repetition of a single digit; on a repeated digit it returns false. -/
theorem validateCpf_check_digits (ds : List Nat) (hlen : ds.length = 11)
    (hdig : ∀ d ∈ ds, d ≤ 9) :
    (validateCpf ds = true ↔ (cpfDigitsMatchSpec ds ∧ allSameDigits ds = false)) ∧
    (allSameDigits ds = true → validateCpf ds = false) := by
  have h1 := (cpfDv_eq (cpfSum1 ds)).1.trans (cpfDv_eq (cpfSum1 ds)).2
  have h2 := (cpfDv_eq (cpfSum2 ds)).1.trans (cpfDv_eq (cpfSum2 ds)).2
  unfold validateCpf cpfDigitsMatchSpec
  rw [h1, h2]
  constructor
  · cases hs : allSameDigits ds <;> split_ifs <;> simp_all
  · intro hs
    simp [hlen, hs]

/-- Claim C2 (witness): the theorem applied to the valid CPF 52998224725 and
evaluated. -/
theorem validateCpf_check_digits_witness :
    validateCpf [5, 2, 9, 9, 8, 2, 2, 4, 7, 2, 5] = true ↔
      (cpfDigitsMatchSpec [5, 2, 9, 9, 8, 2, 2, 4, 7, 2, 5] ∧
       allSameDigits [5, 2, 9, 9, 8, 2, 2, 4, 7, 2, 5] = false) :=
  (validateCpf_check_digits [5, 2, 9, 9, 8, 2, 2, 4, 7, 2, 5] (by decide) (by decide)).1

/-- Claim C10: the two CPF validators agree on every 11-digit string, even
though one computes each check digit as `(soma * 10) % 11` and the other as
`11 - (soma % 11)` (both mapping 10 and 11 to 0). -/
theorem validateCpf_equiv_validarCPF (ds : List Nat) (hlen : ds.length = 11)
    (hdig : ∀ d ∈ ds, d ≤ 9) :
    validateCpf ds = validarCPF ds := by
  have h1 := (cpfDv_eq (cpfSum1 ds)).1
  have h2 := (cpfDv_eq (cpfSum2 ds)).1
  unfold validateCpf validarCPF
  rw [h1, h2, if_neg (by omega : ¬ ds.length ≠ 11)]
  split_ifs <;> simp_all

/-- Claim C10 (witness): the equivalence evaluated at the CPF 52998224725. -/
theorem validateCpf_equiv_validarCPF_witness :
    validateCpf [5, 2, 9, 9, 8, 2, 2, 4, 7, 2, 5] =
      validarCPF [5, 2, 9, 9, 8, 2, 2, 4, 7, 2, 5] :=
  validateCpf_equiv_validarCPF [5, 2, 9, 9, 8, 2, 2, 4, 7, 2, 5] (by decide) (by decide)

/-- Parsed JSON response body: the `error` field, if any, and the remaining
fields (as opaque key/value strings). -/
structure JsonBody where
  error : Option String
  fields : List (String × String)
deriving Repr, DecidableEq

/-- Fetch response as observed by `SentinelaAPIClient.request`. -/
structure FetchResponse where
  status : Nat
  statusText : String
  body : Option JsonBody
deriving Repr, DecidableEq

/-- Model of `Response.ok`: status in the inclusive range 200..299. -/
def respOk (r : FetchResponse) : Bool :=
  decide (200 ≤ r.status) && decide (r.status < 300)

/-- Fallback error message built by the client for a non-ok response whose
body has no (truthy) `error` field. -/
def httpFallbackMsg (r : FetchResponse) : String :=
  "HTTP " ++ toString r.status ++ ": " ++ r.statusText

/-- Embedding of `SentinelaAPIClient.request`: parse the JSON body (a parse
failure rejects regardless of status, since `response.json()` is awaited
before the `ok` check), then throw `data.error || fallback` on a non-ok
status, and return the parsed body otherwise. -/
def apiRequest (r : FetchResponse) : Except String JsonBody :=
  match r.body with
  | none => Except.error "SyntaxError: invalid JSON"
  | some data =>
      if respOk r then Except.ok data
      else
        Except.error
          (match data.error with
           | some msg => if msg = "" then httpFallbackMsg r else msg
           | none => httpFallbackMsg r)

/-- Claim C6: for a response whose body parses as JSON, a 2xx status makes
`request` return the parsed body without throwing, and a non-2xx status
makes it throw the server's `error` field (when present and non-empty) or
the HTTP status fallback message (when the field is absent). -/
theorem apiRequest_status_driven (r : FetchResponse) (j : JsonBody)
    (hb : r.body = some j) :
    (200 ≤ r.status ∧ r.status < 300 → apiRequest r = Except.ok j) ∧
    (¬(200 ≤ r.status ∧ r.status < 300) →
      (∀ msg, j.error = some msg → msg ≠ "" → apiRequest r = Except.error msg) ∧
      (j.error = none → apiRequest r = Except.error (httpFallbackMsg r))) := by
  unfold apiRequest
  rw [hb]
  constructor
  · intro h
    have hok : respOk r = true := by
      unfold respOk
      simp [h.1, h.2]
    rw [hok]
    simp
  · intro h
    have hok : respOk r = false := by
      unfold respOk
      rcases Decidable.not_and_iff_or_not.mp h with h1 | h1 <;> simp [h1]
    rw [hok]
    constructor
    · intro msg hmsg hne
      simp [hmsg, hne]
    · intro hnone
      simp [hnone]

/-- Claim C6 (witness): a 404 response with a JSON `error` field surfaces
that message. -/
theorem apiRequest_status_driven_witness :
    apiRequest ⟨404, "NOT FOUND", some ⟨some "Placa não encontrada", []⟩⟩ =
      Except.error "Placa não encontrada" :=
  ((apiRequest_status_driven ⟨404, "NOT FOUND", some ⟨some "Placa não encontrada", []⟩⟩
      ⟨some "Placa não encontrada", []⟩ rfl).2 (by decide)).1
    "Placa não encontrada" rfl (by decide)

/-! Passage checkbox update (`updatePassagem` in static/js/consulta.js and in
the frontend consulta component).  Clicking a checkbox first toggles its DOM
state, then the handler issues `PUT /api/passagem/{id}` with the attempted
value and, on a failed request, assigns `checkbox.checked = !value`. -/

/-- Body of the `PUT /api/passagem/{id}` request: `{field, value}`. -/
structure PassagemPut where
  field : List Char
  value : Bool
deriving Repr, DecidableEq

/-- Embedding of `updatePassagem`: given the checkbox state at call time and
whether the PUT succeeds, return the final checkbox state and the request
body sent.  On failure the source executes `checkbox.checked = !value`. -/
def updatePassagem (checkedAtCall : Bool) (field : List Char) (success : Bool) :
    Bool × PassagemPut :=
  let value := checkedAtCall
  (if success then value else !value, ⟨"ilicito_".data ++ field, value⟩)

/-- One full checkbox click: the DOM toggles the checked state from `b0` to
`!b0` before the click handler calls `updatePassagem`. -/
def checkboxClickResult (b0 : Bool) (field : List Char) (success : Bool) :
    Bool × PassagemPut :=
  updatePassagem (!b0) field success

/-- Claim C9: a click attempts the toggled value; on a failed PUT the
checkbox is restored to its pre-toggle state (the negation of the attempted
value), and on success it keeps the new value. -/
theorem updatePassagem_revert_on_error (b0 success : Bool) (field : List Char) :
    ((checkboxClickResult b0 field success).2.value = !b0) ∧
    (success = false → (checkboxClickResult b0 field success).1 = b0) ∧
    (success = true → (checkboxClickResult b0 field success).1 = !b0) := by
  cases success <;> cases b0 <;> simp [checkboxClickResult, updatePassagem]

/-- Claim C9 (witness): a checked checkbox, unchecked by the user, reverts to
checked when the PUT fails. -/
theorem updatePassagem_revert_on_error_witness :
    (checkboxClickResult true "volta".data false).1 = true :=
  (updatePassagem_revert_on_error true false "volta".data).2.1 rfl

/-! ConsultaService query flow (frontend consulta_service.js): client-side
validation, a five-minute TTL cache keyed by the cleaned query value, one
API call on a cache miss, and a friendlier message for not-found errors.
The network is an oracle parameter (`apiResp`), time is the `now` argument
(`Date.now()`), and the data processing step (`_processarDadosPlaca` /
`_processarDadosCPF`, pure formatting) is the `process` parameter. -/

/-- Row data extracted from a passage table row (`getRowDataFromTr`):
plate, parsed timestamp (when the cell parses) and location text. -/
structure RowData where
  placa : List Char
  dateObj : Option Int
  localTxt : List Char
deriving Repr, DecidableEq

/-- Body of the `POST /api/local_entrega` request.  The `inicio` and `fim`
fields hold the epoch values whose `toISOString` renderings the source puts
in `inicio_iso` and `fim_iso`. -/
structure LEPayload where
  placa : List Char
  inicio : Int
  fim : Int
  municipio : List Char
deriving Repr, DecidableEq

/-- Pairing state of the static page (`ConsultaApp.state.lastIdaByPlaca`). -/
structure PairState where
  lastIdaByPlaca : List (List Char × RowData)
deriving Repr

/-- Checkbox column clicked. -/
inductive Column where
  | ida
  | volta
deriving Repr, DecidableEq

/-- Observable outcome of one (non-shift) checkbox click. -/
structure ClickOutcome where
  state : PairState
  prompts : Nat
  posts : List LEPayload
deriving Repr

/-- Embedding of the pairing logic of `handlePassagemClick` for a non-shift
click: an ida click records the row under its plate (whatever the checked
state, as in the source); a checked volta click with a recorded ida row and
two parsed dates prompts once when `voltaDate >= idaDate` and, unless the
prompt is cancelled (`userResp = none`), issues exactly one create request
spanning the two dates. -/
def handlePassagemClick (st : PairState) (column : Column) (checked : Bool)
    (row : RowData) (userResp : Option (List Char)) : ClickOutcome :=
  match column with
  | Column.ida =>
      if row.placa ≠ [] then
        ⟨⟨(row.placa, row) :: st.lastIdaByPlaca⟩, 0, []⟩
      else
        ⟨st, 0, []⟩
  | Column.volta =>
      if checked = true ∧ row.placa ≠ [] then
        match List.lookup row.placa st.lastIdaByPlaca with
        | none => ⟨st, 0, []⟩
        | some idaRow =>
            match idaRow.dateObj, row.dateObj with
            | some idaDate, some voltaDate =>
                if idaDate ≤ voltaDate then
                  match userResp with
                  | none => ⟨st, 1, []⟩
                  | some m => ⟨st, 1, [⟨row.placa, idaDate, voltaDate, m⟩]⟩
                else
                  ⟨st, 0, []⟩
            | _, _ => ⟨st, 0, []⟩
      else
        ⟨st, 0, []⟩

/-- Outbound info stored by the frontend component
(`this.state.lastIdaByPlaca`). -/
structure IdaInfoF where
  municipio : List Char
  datahora : Int
deriving Repr, DecidableEq

/-- Observable outcome of `checkCreateLocalEntrega`. -/
structure CheckLEOutcome where
  prompts : Nat
  posts : List LEPayload
  state : List (List Char × IdaInfoF)
deriving Repr

/-- Embedding of `ConsultaComponent.checkCreateLocalEntrega`: with a stored
outbound entry for the plate, a return date not after the outbound date
aborts with a warning; otherwise the user is prompted once and, unless they
cancel, one create request is issued (an empty trimmed answer falls back to
the return municipio) and the outbound entry is cleared. -/
def checkCreateLocalEntrega (st : List (List Char × IdaInfoF)) (placa : List Char)
    (voltaMunicipio : List Char) (voltaDatahora : Int)
    (userResp : Option (List Char)) : CheckLEOutcome :=
  match List.lookup placa st with
  | none => ⟨0, [], st⟩
  | some idaInfo =>
      if voltaDatahora ≤ idaInfo.datahora then
        ⟨0, [], st⟩
      else
        match userResp with
        | none => ⟨1, [], st⟩
        | some m =>
            let m2 := jsTrim m
            ⟨1, [⟨placa, idaInfo.datahora, voltaDatahora,
                  if m2 = [] then voltaMunicipio else m2⟩],
             st.filter (fun p => !(p.1 == placa))⟩

/-- Claim C1: after an outbound passage of plate X is marked at T1, marking a
return passage of X at T2 > T1 triggers exactly one prompt over the two
clicks and, on confirmation, exactly one `local_entrega` create request
spanning T1..T2; with T2 < T1, no prompt and no create request.  The same
holds for the frontend `checkCreateLocalEntrega` given its stored outbound
entry. -/
theorem pairing_heuristic_single_create (st0 : PairState)
    (placa loc1 loc2 m : List Char) (t1 t2 : Int) (hp : placa ≠ [])
    (stF : List (List Char × IdaInfoF)) (idaMun voltaMun : List Char)
    (hF : List.lookup placa stF = some ⟨idaMun, t1⟩) :
    (t1 < t2 →
      (handlePassagemClick st0 Column.ida true ⟨placa, some t1, loc1⟩ none).prompts = 0 ∧
      (handlePassagemClick st0 Column.ida true ⟨placa, some t1, loc1⟩ none).posts = [] ∧
      (handlePassagemClick
          (handlePassagemClick st0 Column.ida true ⟨placa, some t1, loc1⟩ none).state
          Column.volta true ⟨placa, some t2, loc2⟩ (some m)).prompts = 1 ∧
      (handlePassagemClick
          (handlePassagemClick st0 Column.ida true ⟨placa, some t1, loc1⟩ none).state
          Column.volta true ⟨placa, some t2, loc2⟩ (some m)).posts =
        [⟨placa, t1, t2, m⟩]) ∧
    (t2 < t1 →
      (handlePassagemClick
          (handlePassagemClick st0 Column.ida true ⟨placa, some t1, loc1⟩ none).state
          Column.volta true ⟨placa, some t2, loc2⟩ (some m)).prompts = 0 ∧
      (handlePassagemClick
          (handlePassagemClick st0 Column.ida true ⟨placa, some t1, loc1⟩ none).state
          Column.volta true ⟨placa, some t2, loc2⟩ (some m)).posts = []) ∧
    (t1 < t2 →
      (checkCreateLocalEntrega stF placa voltaMun t2 (some m)).prompts = 1 ∧
      (jsTrim m ≠ [] →
        (checkCreateLocalEntrega stF placa voltaMun t2 (some m)).posts =
          [⟨placa, t1, t2, jsTrim m⟩])) ∧
    (t2 < t1 →
      (checkCreateLocalEntrega stF placa voltaMun t2 (some m)).prompts = 0 ∧
      (checkCreateLocalEntrega stF placa voltaMun t2 (some m)).posts = []) := by
  have hs1 : handlePassagemClick st0 Column.ida true ⟨placa, some t1, loc1⟩ none =
      ⟨⟨(placa, ⟨placa, some t1, loc1⟩) :: st0.lastIdaByPlaca⟩, 0, []⟩ := by
    unfold handlePassagemClick
    rw [if_pos hp]
  have hlk : List.lookup placa
      ((placa, (⟨placa, some t1, loc1⟩ : RowData)) :: st0.lastIdaByPlaca) =
      some ⟨placa, some t1, loc1⟩ := by
    simp [List.lookup]
  refine ⟨?_, ?_, ?_, ?_⟩
  · intro hlt
    rw [hs1]
    refine ⟨rfl, rfl, ?_, ?_⟩ <;>
      simp [handlePassagemClick, hp, hlk, le_of_lt hlt]
  · intro hlt
    rw [hs1]
    constructor <;>
      simp [handlePassagemClick, hp, hlk, not_le.mpr hlt]
  · intro hlt
    have hle : ¬ t2 ≤ t1 := by omega
    refine ⟨by simp [checkCreateLocalEntrega, hF, hle], ?_⟩
    intro hm
    simp [checkCreateLocalEntrega, hF, hle, hm]
  · intro hlt
    have hle : t2 ≤ t1 := by omega
    constructor <;> simp [checkCreateLocalEntrega, hF, hle]

/-- Claim C1 (witness): the concrete two-click run for plate "A", outbound at
5, return at 9, user answer "Porto". -/
theorem pairing_heuristic_single_create_witness :
    (handlePassagemClick
        (handlePassagemClick ⟨[]⟩ Column.ida true ⟨['A'], some 5, []⟩ none).state
        Column.volta true ⟨['A'], some 9, []⟩ (some "Porto".data)).prompts = 1 ∧
    (handlePassagemClick
        (handlePassagemClick ⟨[]⟩ Column.ida true ⟨['A'], some 5, []⟩ none).state
        Column.volta true ⟨['A'], some 9, []⟩ (some "Porto".data)).posts =
      [⟨['A'], 5, 9, "Porto".data⟩] :=
  ⟨((pairing_heuristic_single_create ⟨[]⟩ ['A'] [] [] "Porto".data 5 9 (by decide)
      [(['A'], ⟨[], 5⟩)] [] "X".data (by decide)).1 (by decide)).2.2.1,
   ((pairing_heuristic_single_create ⟨[]⟩ ['A'] [] [] "Porto".data 5 9 (by decide)
      [(['A'], ⟨[], 5⟩)] [] "X".data (by decide)).1 (by decide)).2.2.2⟩

end Sentinela
